import Mathlib

/-!
Verification of the gluegun command resolution and dispatch engine.

Shallow embedding of `src/packages/gluegun/src/domain/runtime.js`:
the dispatch orchestrator `run` (lines 52-117), the command resolver
`findCommand` (lines 212-247), the configuration merger and the
extension pipeline.

Modelling conventions:
* JavaScript objects used as configuration maps become insertion-ordered
  association lists (`Obj`, `Config`); Ramda's `merge` becomes `mergeObj`
  and the JS property assignment `config[name] = v` becomes `setKey`.
  Object `clone` is the identity in this pure model.
* Fallible behaviour is explicit: `findCommand` returns
  `Except JsError …`.  Its first statement evaluates `context.commands`,
  which in JavaScript raises a `TypeError` when the argument is
  `null`/`undefined` (there is no nil guard in the source).  Beyond that,
  the body reads the identifier `plugin` (line 225, `plugin.commands`
  inside the reduce step, and line 236, `plugin.name` inside the
  default-command predicate), and no binding named `plugin` exists in
  the method, the class or the module scope — the function's parameter
  is named `context`.  A JavaScript read of an unresolvable identifier
  raises a `ReferenceError`, so for every plugin with a non-empty
  command collection `findCommand` raises: line 225 on the first reduce
  step of a non-empty token path, line 236 inside the predicate `find`
  applies to the non-empty `context.commands` on an empty one.  The
  alias-matching walk, the length sort and the final lookups are dead
  code, embedded only through the error their enclosing reads raise.
* The command's `run` behaviour and the extensions' `setup` operations
  are external code; dispatch is modelled as additionally producing a
  trace of `Event`s.  A command's behaviour is abstracted as its
  (opaque) result value.  The post-resolution phase of `run`
  (lines 92-116) is embedded structurally as `finishRun`, although it is
  unreachable in this source: `findCommand` never yields a command.
-/

namespace Gluegun

/-- A flat JavaScript object with string values, in property order. -/
abbrev Obj := List (String × String)

/-- A JavaScript object whose values are themselves objects
(the runtime's `config` and `defaults` maps). -/
abbrev Config := List (String × Obj)

/-- Ramda `merge(a, b)` (= `Object.assign(\x7b\x7d, a, b)`): keys of `a` in
order, with `b`'s value where `b` has the key, followed by `b`'s keys not
in `a`; `b` wins on collision. -/
def mergeObj (a b : Obj) : Obj :=
  a.map (fun kv =>
    match b.lookup kv.1 with
    | some w => (kv.1, w)
    | none => kv) ++
  b.filter (fun kv => (a.lookup kv.1).isNone)

/-- JS property assignment `c[k] = v`: replace the entry in place when the
key is present, otherwise append it. -/
def setKey (c : Config) (k : String) (v : Obj) : Config :=
  if c.any (fun kv => kv.1 == k) then
    c.map (fun kv => if kv.1 == k then (k, v) else kv)
  else c ++ [(k, v)]

/-- A command of a plugin (`domain/command`): a `name`, the `commandPath`
of segments addressing it, `alias` strings, and the optional runnable
behaviour, abstracted as the (opaque) result value it produces. -/
structure Command where
  name : String
  commandPath : List String
  «alias» : List String
  run : Option String
deriving DecidableEq

/-- A registered extension.  Its `setup` operation is external
side-effecting code; the dispatch trace records its invocation. -/
structure Extension where
  name : String
deriving DecidableEq

/-- A plugin: a named unit owning commands and bundled `defaults`. -/
structure Plugin where
  name : String
  commands : List Command
  defaults : Obj
deriving DecidableEq

/-- The runtime state consulted by `run` (constructor of `Runtime`). -/
structure Runtime where
  brand : String
  plugins : List Plugin
  extensions : List Extension
  defaults : Config
  config : Config
  /-- Modelled from the spec: `this.defaultPlugin`, the runtime's
  brand-named default plugin; set by loading code that is not under
  `src/`, so kept abstract as an optional plugin. -/
  defaultPlugin : Option Plugin
deriving DecidableEq

/-- Modelled from the spec: `this.pluginNames`, the names of the loaded
plugins of the Plugin Registry (not under `src/`). -/
def Runtime.pluginNames (rt : Runtime) : List String :=
  rt.plugins.map (fun p => p.name)

/-- Modelled from the spec: `this.findPlugin(name)`, resolving a plugin
by name from the registry; fails softly, an unknown name yields a
missing plugin (not under `src/`). -/
def Runtime.findPlugin (rt : Runtime) (name : String) : Option Plugin :=
  rt.plugins.find? (fun p => p.name == name)

/-- `(this.defaults && this.defaults[name]) || \x7b\x7d`: the runtime-level
per-plugin defaults for `name`, or the empty object when absent. -/
def runtimeDefaults (rt : Runtime) (name : String) : Obj :=
  (rt.defaults.lookup name).getD []

/-- Modelled from the spec: the structured parameter object produced by
the external Parameter Normalizer (`cli/normalize-params`, not under
`src/`): plugin, command, the remaining token array and an options map. -/
structure Parameters where
  pluginName : String
  commandName : String
  array : List String
  options : Obj
deriving DecidableEq

/-- Modelled from the spec: the external Parameter Normalizer collaborator
`normalize(pluginName, commandName, tokens)`, kept abstract as a function
parameter of the dispatcher. -/
abbrev NormalizeFn := String → String → List String → Parameters

/-- The per-invocation `RunContext` record (`domain/run-context`); every
field starts out absent.  The `runtime` back-reference is omitted. -/
structure RunContext where
  pluginName : Option String
  commandName : Option String
  plugin : Option Plugin
  command : Option Command
  config : Option Config
  parameters : Option Parameters
  result : Option String
deriving DecidableEq

/-- Observable dispatch effects: an extension's `setup` invocation on the
context, and the execution of the resolved command's behaviour. -/
inductive Event where
  | setup (extensionName : String)
  | exec (commandPath : List String)
deriving DecidableEq

/-- The JavaScript exceptions the embedded code raises: the `TypeError`
from reading `.commands` off a missing plugin (line 213), and the
`ReferenceError` from reading the unbound identifier `plugin`
(lines 225 and 236). -/
inductive JsError where
  | typeError
  | referenceError
deriving DecidableEq

/-- The `rawCommand` argument of `run`: a string, a token array, or
omitted (`undefined`). -/
inductive JsCmd where
  | str (s : String)
  | arr (tokens : List String)
  | undef
deriving DecidableEq

/-- Lines 59-64 of `run`: `rawCommand || process.argv`, splitting a
string command on `' '`, and dropping the first two entries when the
result equals the live process argument vector (Ramda `equals` is deep
equality).  The empty string is falsy and falls back to `argv`. -/
def tokenize (argv : List String) (rawCommand : JsCmd) : List String :=
  let ca : List String :=
    match rawCommand with
    | JsCmd.str s => if s = "" then argv else s.splitOn " "
    | JsCmd.arr xs => xs
    | JsCmd.undef => argv
  if ca = argv then ca.drop 2 else ca

/-- The outcome of lines 66-84 of `run`: the chosen plugin name, command
name, directly-assigned plugin (branch one only) and remaining tokens. -/
structure Resolution where
  pluginName : String
  commandName : String
  plugin : Option Plugin
  commandArray : List String
deriving DecidableEq

/-- `commandArray[1] || commandName` at line 77: the second token when
present and truthy, else the first token. -/
def secondName (t0 : String) (rest : List String) : String :=
  match rest with
  | [] => t0
  | t :: _ => if t = "" then t0 else t

/-- Lines 66-84 of `run`: determine plugin name, command name and the
remaining token array.  `!commandName` is true for a missing or empty
first token; `commandArray[1] || commandName` falls back on a missing or
empty second token. -/
def resolveStep (rt : Runtime) (commandArray : List String) : Resolution :=
  match commandArray with
  | [] => ⟨rt.brand, rt.brand, rt.defaultPlugin, commandArray⟩
  | c :: rest =>
    if c = "" then ⟨rt.brand, rt.brand, rt.defaultPlugin, commandArray⟩
    else if rt.pluginNames.contains c then
      ⟨c, secondName c rest, none, rest⟩
    else ⟨rt.brand, c, none, commandArray⟩

/-- Line 86 of `run`:
`context.plugin = context.plugin || this.findPlugin(context.pluginName)`. -/
def pluginOf (rt : Runtime) (res : Resolution) : Option Plugin :=
  match res.plugin with
  | some p => some p
  | none => rt.findPlugin res.pluginName

/-- `Runtime.findCommand` (lines 212-247).  Its first statement evaluates
`context.commands`: on a missing plugin that property read raises a
`TypeError`; on a plugin with a nil-or-empty command collection it
returns null.  Every remaining path reads the unbound identifier
`plugin` — line 225 (`plugin.commands` as the argument of `sort`) runs
on the first step of the reduce when the token path is non-empty, and
line 236 (`plugin.name` in the default-command predicate) runs when the
reduce leaves the accumulated path empty, since `find` applies the
predicate to the non-empty `context.commands` — so a plugin that has
commands always raises a `ReferenceError` and never yields a command. -/
def findCommand (plugin? : Option Plugin) (commandPath : List String) :
    Except JsError (Option Command) :=
  match plugin? with
  | none => Except.error JsError.typeError
  | some plugin =>
    if plugin.commands.isEmpty then Except.ok none
    else Except.error JsError.referenceError

/-- Lines 92-116 of `run`, the branch taken once plugin and command both
resolve: build the effective configuration, normalize parameters and
merge the caller options over them, then, when the command has a
runnable behaviour, invoke every extension's `setup` in registration
order followed by the command itself.  Embedded for structural fidelity
with the source; unreachable in this program, because `findCommand`
never yields a command. -/
def finishRun (normalize : NormalizeFn) (rt : Runtime)
    (pluginName commandName : String) (plugin : Plugin) (command : Command)
    (commandArray : List String) (options : Option Obj) :
    RunContext × List Event :=
  let config := setKey rt.config plugin.name
    (mergeObj plugin.defaults (runtimeDefaults rt plugin.name))
  let base := normalize plugin.name command.name commandArray
  let parameters : Parameters :=
    ⟨base.pluginName, base.commandName, base.array,
      mergeObj base.options (options.getD [])⟩
  match command.run with
  | some r =>
    (⟨some pluginName, some commandName, some plugin, some command,
        some config, some parameters, some r⟩,
      rt.extensions.map (fun e => Event.setup e.name) ++
        [Event.exec command.commandPath])
  | none =>
    (⟨some pluginName, some commandName, some plugin, some command,
        some config, some parameters, none⟩, [])

/-- The dispatch orchestrator `run` (lines 52-117).  `argv` is the live
process argument vector and `normalize` the external Parameter
Normalizer, both ambient dependencies made explicit.  Returns the final
`RunContext` paired with the trace of dispatch events, or the propagated
JavaScript exception. -/
def run (argv : List String) (normalize : NormalizeFn) (rt : Runtime)
    (rawCommand : JsCmd) (options : Option Obj) :
    Except JsError (RunContext × List Event) :=
  let commandArray := tokenize argv rawCommand
  let res := resolveStep rt commandArray
  let plugin? := pluginOf rt res
  match findCommand plugin? res.commandArray with
  | Except.error e => Except.error e
  | Except.ok command? =>
    match plugin?, command? with
    | some plugin, some command =>
      Except.ok (finishRun normalize rt res.pluginName res.commandName
        plugin command res.commandArray options)
    | _, _ =>
      Except.ok (⟨some res.pluginName, some res.commandName, plugin?,
        command?, none, none, none⟩, [])

/-! ## A small fact about the plugin registry -/

theorem contains_pluginNames (rt : Runtime) (t0 : String)
    (hmem : rt.pluginNames.contains t0 = true) :
    ∃ p, rt.findPlugin t0 = some p := by
  obtain ⟨nm, hnm, hbeq⟩ := List.contains_iff_exists_mem_beq.mp hmem
  obtain rfl : t0 = nm := beq_iff_eq.mp hbeq
  obtain ⟨p, hp, hpname⟩ := List.mem_map.mp hnm
  have hsome : (rt.plugins.find? (fun q => q.name == t0)).isSome :=
    List.find?_isSome.mpr ⟨p, hp, beq_iff_eq.mpr hpname⟩
  obtain ⟨q, hq⟩ := Option.isSome_iff_exists.mp hsome
  exact ⟨q, hq⟩

/-! ## Concrete scenarios used by the claims -/

/-- A concrete instance of the external Parameter Normalizer, used only
to instantiate theorems on closed inputs. -/
def normalizeStub : NormalizeFn := fun p c a => ⟨p, c, a, []⟩

def cmdDefault : Command := ⟨"args", ["args"], [], some "default-ran"⟩

def cmdConfig : Command := ⟨"config", ["config"], ["c"], some "blue"⟩

def cmdNoop : Command := ⟨"noop", ["noop"], [], none⟩

def argsPlugin : Plugin :=
  ⟨"args", [cmdDefault, cmdConfig, cmdNoop], [("color", "blue")]⟩

def rtW : Runtime :=
  ⟨"test", [argsPlugin], [⟨"print"⟩, ⟨"strings"⟩],
    [("args", [("color", "red")])], [], none⟩

/-- A runtime branded like the `args` plugin itself, mirroring the
repository's own `runtime.test` scenario for `run('config')`. -/
def rtA : Runtime :=
  ⟨"args", [argsPlugin], [⟨"print"⟩, ⟨"strings"⟩],
    [("args", [("color", "red")])], [], none⟩

def rtEmpty : Runtime := ⟨"test", [], [], [], [], none⟩

/-- A runtime holding one plugin that owns no commands: the only kind of
plugin whose resolution does not raise. -/
def rtP : Runtime := ⟨"b", [⟨"p", [], []⟩], [], [], [], none⟩

def argvW : List String := ["node", "gluegun"]

def cmdAliasT : Command := ⟨"a", ["a"], ["t"], none⟩

def cmdNameT : Command := ⟨"t", ["t"], [], none⟩

/-! ## The claims -/

/-- C1: the claim states that an unknown plugin name never causes `run` or
`findCommand` to raise an exception.  The code violates it: with no
matching plugin, `context.plugin` is missing, and `findCommand` reads
`context.commands` off the missing plugin before `run`'s nil check at
line 90, raising a `TypeError`.  This theorem evaluates the code at the
failing input: a runtime with no plugins dispatching the token array
`["foo"]`. -/
theorem C1_unknown_plugin_raises :
    run ["node", "gluegun"] normalizeStub rtEmpty (JsCmd.arr ["foo"]) none =
      Except.error JsError.typeError := by
  rfl

/-- C2: the claim states that for every resolved plugin the
configuration built by `run` merges the plugin's defaults under the
runtime's per-plugin overrides.  The code never builds it: for any
plugin with commands, `findCommand` raises a `ReferenceError` (unbound
`plugin`, line 225) at line 87, so the merge of lines 92-97 is
unreachable and no invocation ever populates `context.config`.  This
theorem evaluates `run` at the scenario of the repository's own
`runtime.test` (`can read from config` expects the result `blue`;
`project config trumps plugin config` expects `red`). -/
theorem C2_config_merge_unreachable :
    run argvW normalizeStub rtA (JsCmd.arr ["config"]) none =
      Except.error JsError.referenceError := by
  rfl

/-- C3: the claim states that resolving with one of a command's alias
strings yields the identical Command object that resolving with its
canonical name yields.  The code yields no Command either way: the
`config` command carries the alias `c`, and both resolutions raise a
`ReferenceError` at line 225 (unbound `plugin`) on the first step of the
walk. -/
theorem C3_alias_resolution_raises :
    "c" ∈ cmdConfig.«alias» ∧ cmdConfig ∈ argsPlugin.commands ∧
    findCommand (some argsPlugin) ["c"] =
      Except.error JsError.referenceError ∧
    findCommand (some argsPlugin) ["config"] =
      Except.error JsError.referenceError := by
  refine ⟨by decide, by decide, rfl, rfl⟩

/-- C4: the claim states that when several commands match the
accumulated path and current token, the walk chooses the one with the
shortest `commandPath`, ties to the first found.  The step never chooses
anything: evaluating `plugin.commands` (line 225, unbound `plugin`) as
the argument of `sort` raises a `ReferenceError` before the sort or the
find can run.  Here two commands both match the token `t` (one by
alias, one by name) and resolution still raises. -/
theorem C4_no_selection_occurs :
    (cmdAliasT.commandPath.dropLast = [] ∧
      (cmdAliasT.name = "t" ∨ "t" ∈ cmdAliasT.«alias»)) ∧
    (cmdNameT.commandPath.dropLast = [] ∧
      (cmdNameT.name = "t" ∨ "t" ∈ cmdNameT.«alias»)) ∧
    findCommand (some ⟨"pl", [cmdAliasT, cmdNameT], []⟩) ["t"] =
      Except.error JsError.referenceError := by
  refine ⟨by decide, by decide, rfl⟩

/-- C5: the claim states that `findCommand` terminates on every path and
returns the plugin's default command (the one whose `commandPath` is
exactly `[pluginName]`) or none when no token matched.  For any plugin
that has commands — the `args` plugin even has the default command — the
code instead raises a `ReferenceError`: line 236's default-command
predicate reads the unbound `plugin.name` on the empty path, and
line 225 reads the unbound `plugin.commands` on a never-matching path. -/
theorem C5_default_fallback_raises :
    cmdDefault ∈ argsPlugin.commands ∧
    cmdDefault.commandPath = [argsPlugin.name] ∧
    findCommand (some argsPlugin) [] =
      Except.error JsError.referenceError ∧
    findCommand (some argsPlugin) ["zzz"] =
      Except.error JsError.referenceError := by
  refine ⟨by decide, by decide, rfl, rfl⟩

/-- C6 as amended: when the first token is a non-empty known plugin name
and the token array is not the live process argument vector, `run`
selects that plugin, sets `commandName` to the second token when present
and non-empty (falling back to the plugin name otherwise), and drops the
plugin-name token from the remaining path; but the resolved command is
never the plugin's default command: a plugin with commands makes the
subsequent `findCommand` call raise a `ReferenceError` (unbound
`plugin`), and a plugin without commands leaves the command unresolved
(none) in the returned context. -/
theorem C6_first_token_plugin (argv : List String) (normalize : NormalizeFn)
    (rt : Runtime) (options : Option Obj) (t0 : String) (rest : List String)
    (hne : t0 ≠ "") (hmem : rt.pluginNames.contains t0 = true)
    (hargv : t0 :: rest ≠ argv) :
    ∃ p, rt.findPlugin t0 = some p ∧
      resolveStep rt (t0 :: rest) = ⟨t0, secondName t0 rest, none, rest⟩ ∧
      (p.commands.isEmpty = true →
        run argv normalize rt (JsCmd.arr (t0 :: rest)) options =
          Except.ok (⟨some t0, some (secondName t0 rest), some p, none,
            none, none, none⟩, [])) ∧
      (p.commands.isEmpty = false →
        run argv normalize rt (JsCmd.arr (t0 :: rest)) options =
          Except.error JsError.referenceError) := by
  obtain ⟨p, hp⟩ := contains_pluginNames rt t0 hmem
  have htok : tokenize argv (JsCmd.arr (t0 :: rest)) = t0 :: rest := by
    simp [tokenize, hargv]
  have hres : resolveStep rt (t0 :: rest) =
      ⟨t0, secondName t0 rest, none, rest⟩ := by
    simp only [resolveStep]
    rw [if_neg hne, if_pos hmem]
  refine ⟨p, hp, hres, ?_, ?_⟩
  · intro hemp
    have hfc : findCommand (some p) rest = Except.ok none := by
      simp only [findCommand]
      rw [if_pos hemp]
    simp only [run, htok, hres, pluginOf, hp, hfc]
  · intro hemp
    have hfc : findCommand (some p) rest =
        Except.error JsError.referenceError := by
      simp only [findCommand]
      rw [if_neg (by simp [hemp])]
    simp only [run, htok, hres, pluginOf, hp, hfc]

/-- Witness for C6 (amended): dispatching the token array `["p", "x"]`
on a runtime whose plugin `p` owns no commands selects the plugin, makes
`x` the command name, and returns the context with no command. -/
theorem C6_first_token_plugin_witness :
    ∃ p, rtP.findPlugin "p" = some p ∧
      resolveStep rtP ("p" :: ["x"]) =
        ⟨"p", secondName "p" ["x"], none, ["x"]⟩ ∧
      (p.commands.isEmpty = true →
        run [] normalizeStub rtP (JsCmd.arr ("p" :: ["x"])) none =
          Except.ok (⟨some "p", some (secondName "p" ["x"]), some p, none,
            none, none, none⟩, [])) ∧
      (p.commands.isEmpty = false →
        run [] normalizeStub rtP (JsCmd.arr ("p" :: ["x"])) none =
          Except.error JsError.referenceError) :=
  C6_first_token_plugin [] normalizeStub rtP none "p" ["x"]
    (by decide) (by rfl) (by decide)

/-- Counterexample to C6 as stated: first, the token array `["p", ""]`
has the known plugin name `p` first and an (empty-string) second token,
yet the resolved `commandName` is the plugin name `p`, not the second
token; second, the token array `["args"]` names a plugin that has a
default command, yet `run` raises a `ReferenceError` instead of
resolving that default command. -/
theorem C6_counterexample :
    (run [] normalizeStub rtP (JsCmd.arr ["p", ""]) none =
      Except.ok
        (⟨some "p", some "p", some ⟨"p", [], []⟩, none, none, none, none⟩,
          []) ∧
    (some "p" : Option String) ≠ some "") ∧
    run argvW normalizeStub rtW (JsCmd.arr ["args"]) none =
      Except.error JsError.referenceError := by
  refine ⟨⟨rfl, by decide⟩, rfl⟩

/-- C7: the claim states that after resolution `run` merges the
caller-supplied options over the normalizer-derived options with caller
precedence.  The merge at lines 99-105 is unreachable: `findCommand`
raises a `ReferenceError` for every plugin with commands, so `run` never
builds a parameters object at all.  This theorem evaluates `run` with
caller options supplied. -/
theorem C7_options_merge_unreachable :
    run argvW normalizeStub rtW (JsCmd.arr ["args", "config"])
      (some [("force", "yes")]) = Except.error JsError.referenceError := by
  rfl

/-- C8: the claim states that each registered extension's `setup` runs
exactly once, in registration order, before a resolved command's
behaviour.  The extension loop at line 110 and the command invocation at
line 113 are unreachable: `findCommand` raises a `ReferenceError` at
line 87 for every plugin with commands.  Here the runtime has two
registered extensions and the dispatch still raises before any `setup`
can run. -/
theorem C8_extension_pipeline_unreachable :
    rtW.extensions = [⟨"print"⟩, ⟨"strings"⟩] ∧
    run argvW normalizeStub rtW (JsCmd.arr ["args", "config"]) none =
      Except.error JsError.referenceError := by
  exact ⟨rfl, rfl⟩

/-- C9: the claim states that a resolved command lacking a runnable
behaviour yields a populated context, no invocation and no error.  The
code cannot resolve such a command: dispatching `args noop` (where the
`noop` command has no `run` function) raises a `ReferenceError` inside
`findCommand` before any context field beyond the names is populated,
and `run` returns no context at all. -/
theorem C9_resolution_raises_before_context :
    cmdNoop ∈ argsPlugin.commands ∧ cmdNoop.run = none ∧
    run argvW normalizeStub rtW (JsCmd.arr ["args", "noop"]) none =
      Except.error JsError.referenceError := by
  refine ⟨by decide, rfl, rfl⟩

/-- C10: `run('')` does not dispatch an empty token path: the empty string
is falsy, so `run` falls back to the live process argument vector exactly
as a call with the command argument omitted, and the tokenization strips
the first two `argv` entries. -/
theorem C10_empty_string_falls_back_to_argv (argv : List String)
    (normalize : NormalizeFn) (rt : Runtime) (options : Option Obj) :
    run argv normalize rt (JsCmd.str "") options =
      run argv normalize rt JsCmd.undef options ∧
    tokenize argv (JsCmd.str "") = argv.drop 2 := by
  have htok : tokenize argv (JsCmd.str "") = tokenize argv JsCmd.undef := by
    simp [tokenize]
  constructor
  · simp only [run]
    rw [htok]
  · rw [htok]
    simp [tokenize]

end Gluegun
